import Mathlib

/-!
# Verification of the Canvas LMS extension's estimation pipeline

Shallow embedding of the time-estimation service (`TimeEstimator`), the
Canvas source client (`CanvasAPI.getUpcomingAssignments`) and the background
orchestrator (`refreshAssignmentsInBackground`) of the browser extension,
together with proofs of the specified properties.

JavaScript conventions used throughout the embedding:
* a possibly-`undefined` value is an `Option`;
* JS string truthiness (`undefined`, `null` and `""` are falsy) is `jsTruthy`;
* `x || d` on strings is `jsOr`;
* machine numbers are modelled as `Rat` (the values the code manipulates are
  small decimal numbers; no overflow or NaN arithmetic is exercised by the
  claims);
* timestamps (`Date.now()`, parsed due dates) are `Int` milliseconds.
-/

/-- JS truthiness of a possibly-undefined string (`undefined` and `""` are falsy). -/
def jsTruthy : Option String → Bool
  | none => false
  | some s => !(s == "")

/-- JS `x || d` for a possibly-undefined string `x` and default `d`. -/
def jsOr (x : Option String) (d : String) : String :=
  match x with
  | none => d
  | some s => if s == "" then d else s

/-- Boolean prefix test on lists. -/
def listPrefixOf [BEq α] : List α → List α → Bool
  | [], _ => true
  | _ :: _, [] => false
  | a :: as, b :: bs => a == b && listPrefixOf as bs

/-- Boolean contiguous-sublist test on lists. -/
def listInfixOf [BEq α] (p : List α) : List α → Bool
  | [] => listPrefixOf p []
  | c :: t => listPrefixOf p (c :: t) || listInfixOf p t

/-- JS `s.toLowerCase()` (ASCII case folding, which is what the titles and
type strings in play use). -/
def jsToLower (s : String) : String :=
  String.mk (s.data.map Char.toLower)

/-- JS `s.includes(sub)`: substring containment. -/
def jsIncludes (s sub : String) : Bool :=
  listInfixOf sub.data s.data

/-- A raw assignment record as consumed by `TimeEstimator` (the
`AssignmentInput` interface).  Optional fields are `Option`; `itemType`
embeds the JS field `type`. -/
structure AssignmentInput where
  title : Option String
  itemType : Option String
  courseName : Option String
  pointsPossible : Option Rat
  submissionTypes : Option (List String)
  description : Option String
  dueDate : Option String
deriving DecidableEq, Inhabited

/-- Per-category estimation rule: base minutes and minutes per point. -/
structure EstimateRule where
  base : Rat
  perPoint : Rat
deriving DecidableEq

/-- The rule used for unresolved categories (the `default` entry). -/
def defaultRule : EstimateRule := ⟨60, 2⟩

/-- The `defaultEstimates` table of `TimeEstimator` (constructor, part_000
lines 37–46). -/
def defaultEstimates : List (String × EstimateRule) :=
  [("quiz", ⟨30, 1⟩),
   ("discussion", ⟨45, 2⟩),
   ("assignment", ⟨60, 3⟩),
   ("essay", ⟨120, 5⟩),
   ("project", ⟨180, 8⟩),
   ("exam", ⟨90, 2⟩),
   ("reading", ⟨30, 1⟩),
   ("default", defaultRule)]

/-- `TimeEstimator.categorizeAssignment` (part_000 lines 360–372): keyword
category inference over the lower-cased title and `type` field, first match
wins. -/
def categorizeAssignment (a : AssignmentInput) : String :=
  if jsToLower (a.itemType.getD "") == "quiz" || jsIncludes (jsToLower (a.title.getD "")) "quiz" then "quiz"
  else if jsToLower (a.itemType.getD "") == "discussion" || jsIncludes (jsToLower (a.title.getD "")) "discussion" then "discussion"
  else if jsIncludes (jsToLower (a.title.getD "")) "essay" || jsIncludes (jsToLower (a.title.getD "")) "paper" then "essay"
  else if jsIncludes (jsToLower (a.title.getD "")) "project" || jsIncludes (jsToLower (a.title.getD "")) "presentation" then "project"
  else if jsIncludes (jsToLower (a.title.getD "")) "exam" || jsIncludes (jsToLower (a.title.getD "")) "test" || jsIncludes (jsToLower (a.title.getD "")) "midterm" || jsIncludes (jsToLower (a.title.getD "")) "final" then "exam"
  else if jsIncludes (jsToLower (a.title.getD "")) "reading" || jsIncludes (jsToLower (a.title.getD "")) "read" then "reading"
  else "assignment"

/-- `TimeEstimator.getHeuristicEstimate` (part_000 lines 332–355): table
lookup, per-point adjustment, submission-type bonuses, clamp to [15, 480]. -/
def getHeuristicEstimate (a : AssignmentInput) : Rat :=
  let ty := categorizeAssignment a
  let rules := match List.lookup ty defaultEstimates with
    | some r => r
    | none => defaultRule
  let m1 : Rat := rules.base + (match a.pointsPossible with
    | some p => p * rules.perPoint
    | none => 0)
  let m2 : Rat := match a.submissionTypes with
    | some ts =>
      let mu := if ts.contains "online_upload" then m1 + 15 else m1
      if ts.contains "media_recording" then mu + 30 else mu
    | none => m1
  min (max m2 15) 480

/-- Modelled from the spec: category resolution as an ordered list of
`(predicate, category)` rules evaluated top-down, priority order
quiz → discussion → essay/paper → project/presentation →
exam/test/midterm/final → reading/read, default `"assignment"`
(spec §4.3 step 1 and §9). -/
def specCategoryRules : List ((AssignmentInput → Bool) × String) :=
  [(fun a => jsToLower (a.itemType.getD "") == "quiz" || jsIncludes (jsToLower (a.title.getD "")) "quiz", "quiz"),
   (fun a => jsToLower (a.itemType.getD "") == "discussion" || jsIncludes (jsToLower (a.title.getD "")) "discussion", "discussion"),
   (fun a => jsIncludes (jsToLower (a.title.getD "")) "essay" || jsIncludes (jsToLower (a.title.getD "")) "paper", "essay"),
   (fun a => jsIncludes (jsToLower (a.title.getD "")) "project" || jsIncludes (jsToLower (a.title.getD "")) "presentation", "project"),
   (fun a => jsIncludes (jsToLower (a.title.getD "")) "exam" || jsIncludes (jsToLower (a.title.getD "")) "test" || jsIncludes (jsToLower (a.title.getD "")) "midterm" || jsIncludes (jsToLower (a.title.getD "")) "final", "exam"),
   (fun a => jsIncludes (jsToLower (a.title.getD "")) "reading" || jsIncludes (jsToLower (a.title.getD "")) "read", "reading")]

/-- First-match-wins evaluation of an ordered rule list, defaulting to
`"assignment"` when no rule fires. -/
def firstMatchCategory : List ((AssignmentInput → Bool) × String) → AssignmentInput → String
  | [], _ => "assignment"
  | (p, c) :: rest, a => if p a then c else firstMatchCategory rest a

/-- The item titled "Quiz Discussion" used by the category-priority property. -/
def quizDiscussionItem : AssignmentInput :=
  { title := some "Quiz Discussion", itemType := none, courseName := none,
    pointsPossible := none, submissionTypes := none, description := none,
    dueDate := none }

/-! ## JSON values and a model of `JSON.parse`

The backend callers parse HTTP bodies and model outputs with `JSON.parse`.
We model JSON values as `JValue` and `JSON.parse` as a standard
recursive-descent parser `jsonParse` over the JSON grammar (objects, arrays,
strings with escapes, numbers, `true`/`false`/`null`); numbers are modelled
exactly as rationals.  Failure of `JSON.parse` (a thrown `SyntaxError`) is
`none`. -/

/-- A JSON value.  Object fields keep their textual order; duplicate keys are
resolved by `lookupLast` (last one wins, as in `JSON.parse`). -/
inductive JValue where
  | null
  | bool (b : Bool)
  | num (q : Rat)
  | str (s : String)
  | arr (elems : List JValue)
  | obj (fields : List (String × JValue))
deriving Inhabited

/-- The character `{` (written via its code point). -/
def lbrace : Char := Char.ofNat 123

/-- The character `}` (written via its code point). -/
def rbrace : Char := Char.ofNat 125

/-- JSON insignificant whitespace. -/
def jsonWs (c : Char) : Bool :=
  c == ' ' || c == '\t' || c == '\n' || c == '\r'

/-- Skip JSON whitespace. -/
def skipWs (l : List Char) : List Char := l.dropWhile jsonWs

/-- Value of a hexadecimal digit. -/
def hexVal (c : Char) : Option Nat :=
  if c.isDigit then some (c.toNat - 48)
  else if 'a' ≤ c && c ≤ 'f' then some (c.toNat - 97 + 10)
  else if 'A' ≤ c && c ≤ 'F' then some (c.toNat - 65 + 10)
  else none

/-- Parse the body of a JSON string after the opening quote, returning the
decoded string and the input after the closing quote. -/
def parseStringBody : List Char → List Char → Option (String × List Char)
  | [], _ => none
  | c :: rest, acc =>
    if c == '"' then some (String.mk acc.reverse, rest)
    else if c == '\\' then
      match rest with
      | [] => none
      | e :: rest2 =>
        if e == '"' then parseStringBody rest2 ('"' :: acc)
        else if e == '\\' then parseStringBody rest2 ('\\' :: acc)
        else if e == '/' then parseStringBody rest2 ('/' :: acc)
        else if e == 'b' then parseStringBody rest2 (Char.ofNat 8 :: acc)
        else if e == 'f' then parseStringBody rest2 (Char.ofNat 12 :: acc)
        else if e == 'n' then parseStringBody rest2 ('\n' :: acc)
        else if e == 'r' then parseStringBody rest2 ('\r' :: acc)
        else if e == 't' then parseStringBody rest2 ('\t' :: acc)
        else if e == 'u' then
          match rest2 with
          | h1 :: h2 :: h3 :: h4 :: rest3 =>
            match hexVal h1, hexVal h2, hexVal h3, hexVal h4 with
            | some a, some b, some c2, some d =>
              parseStringBody rest3 (Char.ofNat (((a * 16 + b) * 16 + c2) * 16 + d) :: acc)
            | _, _, _, _ => none
          | _ => none
        else none
    else if c.toNat < 32 then none
    else parseStringBody rest (c :: acc)

/-- Numeric value of a list of decimal digits. -/
def digitsToNat (ds : List Char) : Nat :=
  ds.foldl (fun n c => n * 10 + (c.toNat - 48)) 0

/-- Parse a JSON number (sign, integer part without leading zeros, optional
fraction, optional exponent). -/
def parseNumber (l : List Char) : Option (Rat × List Char) :=
  let (neg, l1) : Bool × List Char :=
    match l with
    | c :: t => if c == '-' then (true, t) else (false, l)
    | [] => (false, l)
  let intDigits := l1.takeWhile Char.isDigit
  let l2 := l1.dropWhile Char.isDigit
  if intDigits.isEmpty then none
  else if 1 < intDigits.length && intDigits.head? == some '0' then none
  else
    let fracRes : Option (List Char × List Char) :=
      match l2 with
      | c :: t =>
        if c == '.' then
          let fd := t.takeWhile Char.isDigit
          if fd.isEmpty then none else some (fd, t.dropWhile Char.isDigit)
        else some ([], l2)
      | [] => some ([], l2)
    match fracRes with
    | none => none
    | some (fracDigits, l3) =>
      let expRes : Option (Int × List Char) :=
        match l3 with
        | c :: t =>
          if c == 'e' || c == 'E' then
            let (eneg, t2) : Bool × List Char :=
              match t with
              | c2 :: t3 =>
                if c2 == '-' then (true, t3)
                else if c2 == '+' then (false, t3)
                else (false, t)
              | [] => (false, t)
            let ed := t2.takeWhile Char.isDigit
            if ed.isEmpty then none
            else some (if eneg then -(digitsToNat ed : Int) else (digitsToNat ed : Int),
                       t2.dropWhile Char.isDigit)
          else some (0, l3)
        | [] => some (0, l3)
      match expRes with
      | none => none
      | some (e, l4) =>
        let mantissa : Nat :=
          digitsToNat intDigits * 10 ^ fracDigits.length + digitsToNat fracDigits
        let m : Int := if neg then -(mantissa : Int) else (mantissa : Int)
        let q : Rat :=
          if 0 ≤ e then mkRat (m * (10 : Int) ^ e.toNat) (10 ^ fracDigits.length)
          else mkRat m (10 ^ fracDigits.length * 10 ^ (-e).toNat)
        some (q, l4)

mutual

/-- Recursive-descent JSON value parser (fuel-indexed). -/
def parseJValue : Nat → List Char → Option (JValue × List Char)
  | 0, _ => none
  | Nat.succ fuel, l =>
    match skipWs l with
    | [] => none
    | c :: rest =>
      if c == '"' then
        (parseStringBody rest []).map (fun (s, r) => (JValue.str s, r))
      else if c == lbrace then parseObjectFields fuel true rest
      else if c == '[' then parseArrayElems fuel true rest
      else if c == 't' then
        if listPrefixOf "rue".data rest then some (JValue.bool true, rest.drop 3) else none
      else if c == 'f' then
        if listPrefixOf "alse".data rest then some (JValue.bool false, rest.drop 4) else none
      else if c == 'n' then
        if listPrefixOf "ull".data rest then some (JValue.null, rest.drop 3) else none
      else
        (parseNumber (c :: rest)).map (fun (q, r) => (JValue.num q, r))

/-- Parse the members of a JSON object after the opening brace; `first` is
true before the first member (an immediate closing brace is then allowed). -/
def parseObjectFields : Nat → Bool → List Char → Option (JValue × List Char)
  | 0, _, _ => none
  | Nat.succ fuel, first, l =>
    match skipWs l with
    | [] => none
    | c :: rest =>
      if first && c == rbrace then some (JValue.obj [], rest)
      else if c == '"' then
        match parseStringBody rest [] with
        | none => none
        | some (k, r1) =>
          match skipWs r1 with
          | [] => none
          | c2 :: r2 =>
            if c2 == ':' then
              match parseJValue fuel r2 with
              | none => none
              | some (v, r3) =>
                match skipWs r3 with
                | [] => none
                | c3 :: r4 =>
                  if c3 == ',' then
                    match parseObjectFields fuel false r4 with
                    | some (JValue.obj fs, r5) => some (JValue.obj ((k, v) :: fs), r5)
                    | _ => none
                  else if c3 == rbrace then some (JValue.obj [(k, v)], r4)
                  else none
            else none
      else none

/-- Parse the elements of a JSON array after the opening bracket; `first` is
true before the first element. -/
def parseArrayElems : Nat → Bool → List Char → Option (JValue × List Char)
  | 0, _, _ => none
  | Nat.succ fuel, first, l =>
    match skipWs l with
    | [] => none
    | c :: rest =>
      if first && c == ']' then some (JValue.arr [], rest)
      else
        match parseJValue fuel (c :: rest) with
        | none => none
        | some (v, r1) =>
          match skipWs r1 with
          | [] => none
          | c2 :: r2 =>
            if c2 == ',' then
              match parseArrayElems fuel false r2 with
              | some (JValue.arr vs, r3) => some (JValue.arr (v :: vs), r3)
              | _ => none
            else if c2 == ']' then some (JValue.arr [v], r2)
            else none

end

/-- Model of `JSON.parse`: parse a complete JSON text (with enough fuel for
any input of its length); `none` models a thrown `SyntaxError`. -/
def jsonParse (s : String) : Option JValue :=
  match parseJValue (s.length + 1) s.data with
  | some (v, rest) => if (skipWs rest).isEmpty then some v else none
  | none => none

/-- Last binding of a key in a field list (`JSON.parse` keeps the last
duplicate key; JS property lookup then sees that one). -/
def lookupLast (fs : List (String × JValue)) (k : String) : Option JValue :=
  ((fs.filter (fun p => p.1 == k)).getLast?).map (fun p => p.2)

/-- JS property read `v.k` on a value known to be defined and non-null
results in the field value for objects and `undefined` otherwise. -/
def JValue.getField (v : JValue) (k : String) : Option JValue :=
  match v with
  | .obj fs => lookupLast fs k
  | _ => none

/-! ## JS string/array coercion and member access -/

/-- Finite decimal expansion of `r/d` (`none` if it does not terminate
within the given fuel). -/
def decDigits : Nat → Nat → Nat → Option (List Char)
  | 0, r, _ => if r == 0 then some [] else none
  | Nat.succ fuel, r, d =>
    if r == 0 then some []
    else (decDigits fuel (r * 10 % d) d).map (fun ds => Char.ofNat (48 + r * 10 / d) :: ds)

/-- JS `String(n)` for a number, for the (finite-decimal) rationals that
arise from JSON floats; rationals with no finite decimal expansion cannot
arise from a JS float and are rendered as an explicit fraction (never valid
JSON). -/
def ratToString (q : Rat) : String :=
  let sign := if q < 0 then "-" else ""
  let n := q.num.natAbs
  let d := q.den
  if n % d == 0 then sign ++ toString (n / d)
  else
    match decDigits 64 (n % d) d with
    | some ds => sign ++ toString (n / d) ++ "." ++ String.mk ds
    | none => sign ++ toString n ++ "/" ++ toString d

mutual

/-- JS `String(v)` for a defined value. -/
def jsToStringV : JValue → String
  | .null => "null"
  | .bool b => if b then "true" else "false"
  | .num q => ratToString q
  | .str s => s
  | .obj _ => "[object Object]"
  | .arr xs => jsArrayJoin xs

/-- JS `Array.prototype.toString` = `join(",")`, where `null` and
`undefined` elements render as the empty string. -/
def jsArrayJoin : List JValue → String
  | [] => ""
  | [JValue.null] => ""
  | [v] => jsToStringV v
  | JValue.null :: v2 :: vs => "," ++ jsArrayJoin (v2 :: vs)
  | v :: v2 :: vs => jsToStringV v ++ "," ++ jsArrayJoin (v2 :: vs)

end

/-- JS `String(x)` where `x` may be `undefined`. -/
def jsToString : Option JValue → String
  | none => "undefined"
  | some v => jsToStringV v

/-- JS member read `x.k` where `x` may be any defined value: throws on
`null`, yields `undefined` on non-objects. -/
def jsGet (v : JValue) (k : String) : Except String (Option JValue) :=
  match v with
  | .null => .error "TypeError: cannot read properties of null"
  | .obj fs => .ok (lookupLast fs k)
  | _ => .ok none

/-- JS optional-chained member read `x?.k`. -/
def jsGetOpt (v : Option JValue) (k : String) : Option JValue :=
  match v with
  | some (.obj fs) => lookupLast fs k
  | _ => none

/-- JS index read `x[0]`: throws on `undefined`/`null`; arrays yield their
first element, objects their `"0"` field, strings their first character. -/
def jsIndex0 (v : Option JValue) : Except String (Option JValue) :=
  match v with
  | none => .error "TypeError: cannot read properties of undefined"
  | some .null => .error "TypeError: cannot read properties of null"
  | some (.arr xs) => .ok (xs.get? 0)
  | some (.obj fs) => .ok (lookupLast fs "0")
  | some (.str s) => .ok ((s.data.get? 0).map (fun c => JValue.str (String.mk [c])))
  | some _ => .ok none

/-! ## Regex models

`extractMinutes` models the leftmost match of `/(\d+)\s*minutes?/i` (a
maximal digit run, optional whitespace, then `minute` case-insensitively —
the optional trailing `s` does not affect matching or the captured digits).
`ollamaJsonMatch` models the greedy leftmost match of the pattern
`{[\s\S]*"minutes"[\s\S]*}` (with literal braces): the match starts at the
first `{` after which the literal `"minutes"` occurs with some later `}`,
and the greedy quantifiers extend it to the last `}` of the text. -/

/-- JS `\s` for the whitespace characters that occur in practice. -/
def isJsSpace (c : Char) : Bool :=
  c == ' ' || c == '\t' || c == '\n' || c == '\r' || c == Char.ofNat 11 || c == Char.ofNat 12

/-- Does the list start with `minute` (case-insensitive)? -/
def minutesAfter (l : List Char) : Bool :=
  listPrefixOf "minute".data ((l.take 6).map Char.toLower)

/-- Leftmost match of `/(\d+)\s*minutes?/i`: the captured digit run parsed
by `parseInt`. -/
def extractMinutes : List Char → Option Nat
  | [] => none
  | c :: rest =>
    if c.isDigit then
      let run := (c :: rest).takeWhile Char.isDigit
      let after := ((c :: rest).dropWhile Char.isDigit).dropWhile isJsSpace
      if minutesAfter after then some (digitsToNat run)
      else extractMinutes rest
    else extractMinutes rest

/-- Is there an occurrence of `"minutes"` (with quotes) such that a `}`
follows it? -/
def hasMinutesBrace : List Char → Bool
  | [] => false
  | c :: rest =>
    (listPrefixOf "\"minutes\"".data (c :: rest) && (List.drop 9 (c :: rest)).contains rbrace)
      || hasMinutesBrace rest

/-- The suffix of the text beginning at the `{` where the regex match
starts. -/
def ollamaJsonStart : List Char → Option (List Char)
  | [] => none
  | c :: rest =>
    if c == lbrace && hasMinutesBrace rest then some (c :: rest)
    else ollamaJsonStart rest

/-- The prefix of a list up to and including its last `}`. -/
def takeToLastRBrace (l : List Char) : List Char :=
  (l.reverse.dropWhile (fun c => !(c == rbrace))).reverse

/-- The substring matched by `/\{[\s\S]*"minutes"[\s\S]*\}/` (see the section
comment for the greedy-leftmost characterisation), if any. -/
def ollamaJsonMatch (s : String) : Option String :=
  (ollamaJsonStart s.data).map (fun suf => String.mk (takeToLastRBrace suf))

/-! ## Backend callers

Each backend caller takes the outcome of its single `fetch` call as an
explicit parameter (the network is the environment): `fail` models a
rejected promise (network/transport error), `resp` an HTTP response with
status and raw body text.  A caller returns `Except`: `error` models a
thrown exception, `ok` the JS value `return`ed. -/

/-- Outcome of one `fetch` call. -/
inductive FetchOutcome where
  | fail (msg : String)
  | resp (status : Nat) (body : String)

/-- `Response.ok`: status in the range 200–299. -/
def respOk (status : Nat) : Bool := 200 ≤ status && status ≤ 299

/-- Shared hosted-backend content handling (`callOpenAI`/`callAnthropic`,
part_000 lines 222–231 and 261–269): `JSON.parse` of the content
(JS stringifies a non-string argument first); on parse failure the
`/(\d+)\s*minutes?/i` regex over the content builds
`{minutes, reasoning}`; otherwise `Error("Could not parse AI response")`
(`content.match` itself throws when the content is not a string). -/
def hostedParseContent (content : Option JValue) : Except String JValue :=
  match jsonParse (jsToString content) with
  | some v => .ok v
  | none =>
    match content with
    | some (.str s) =>
      match extractMinutes s.data with
      | some n => .ok (.obj [("minutes", .num (n : Int)), ("reasoning", .str s)])
      | none => .error "Could not parse AI response"
    | _ => .error "TypeError: content.match is not a function"

/-- `TimeEstimator.callOpenAI` (part_000 lines 197–232) as a function of its
fetch outcome: non-ok status throws; the body is `response.json()`; the
content is `data.choices[0]?.message?.content`. -/
def callOpenAI (out : FetchOutcome) : Except String JValue :=
  match out with
  | .fail msg => .error msg
  | .resp status body =>
    if !respOk status then .error ("OpenAI API error: " ++ toString status)
    else match jsonParse body with
      | none => .error "SyntaxError: response body is not valid JSON"
      | some data =>
        match jsGet data "choices" with
        | .error e => .error e
        | .ok choices =>
          match jsIndex0 choices with
          | .error e => .error e
          | .ok c0 => hostedParseContent (jsGetOpt (jsGetOpt c0 "message") "content")

/-- `TimeEstimator.callAnthropic` (part_000 lines 237–270) as a function of
its fetch outcome; the content is `data.content[0]?.text`. -/
def callAnthropic (out : FetchOutcome) : Except String JValue :=
  match out with
  | .fail msg => .error msg
  | .resp status body =>
    if !respOk status then .error ("Anthropic API error: " ++ toString status)
    else match jsonParse body with
      | none => .error "SyntaxError: response body is not valid JSON"
      | some data =>
        match jsGet data "content" with
        | .error e => .error e
        | .ok content =>
          match jsIndex0 content with
          | .error e => .error e
          | .ok c0 => hostedParseContent (jsGetOpt c0 "text")

/-- The regex/default fallback stage of the `callOllama` parse cascade
(part_000 lines 317–326). -/
def ollamaFallback (s : String) : JValue :=
  match extractMinutes s.data with
  | some n => .obj [("minutes", .num (n : Int)), ("reasoning", .str s)]
  | none => .obj [("minutes", .num 60), ("reasoning", .str "Could not parse LLM response")]

/-- The parse cascade of `TimeEstimator.callOllama` (part_000 lines
310–326) applied to the string content `data.response`: embedded-JSON
regex then `JSON.parse`, else the bare-number regex, else the fixed
`{minutes: 60}` default.  Total: the parse stage never throws on a string
content. -/
def parseOllamaContent (s : String) : JValue :=
  match ollamaJsonMatch s with
  | some sub =>
    match jsonParse sub with
    | some v => v
    | none => ollamaFallback s
  | none => ollamaFallback s

/-- `TimeEstimator.callOllama` (part_000 lines 275–327) as a function of its
fetch outcome: non-ok status throws with body text attached; the content is
`data.response` (a `content.match` on a non-string content throws out of
both the `try` and the `catch`). -/
def callOllama (out : FetchOutcome) : Except String JValue :=
  match out with
  | .fail msg => .error msg
  | .resp status body =>
    if !respOk status then .error ("Ollama API error: " ++ toString status ++ " - " ++ body)
    else match jsonParse body with
      | none => .error "SyntaxError: response body is not valid JSON"
      | some data =>
        match jsGet data "response" with
        | .error e => .error e
        | .ok (some (.str s)) => .ok (parseOllamaContent s)
        | .ok _ => .error "TypeError: content.match is not a function"

/-! ## The estimation engine -/

/-- The settings read from `chrome.storage.sync` by
`TimeEstimator.configure`; absent keys are `none`. -/
structure Settings where
  aiProvider : Option String
  openaiApiKey : Option String
  anthropicApiKey : Option String
  localLlmUrl : Option String
  localLlmModel : Option String
  estimationModel : Option String
deriving DecidableEq

/-- The provider fields of a freshly-constructed `TimeEstimator` after
`configure` ran (part_000 lines 29–34 and 52–83). -/
structure ProviderState where
  aiProvider : String
  apiKey : Option String
  model : String
  localLlmUrl : String
  localLlmModel : String
deriving DecidableEq

/-- `TimeEstimator.configure` (part_000 lines 52–83) on a fresh instance:
provider defaults to `"none"`, the key is read from the matching per-provider
settings entry (and stays `null` otherwise), the local URL/model get their
defaults. -/
def configure (s : Settings) : ProviderState :=
  let provider := jsOr s.aiProvider "none"
  { aiProvider := provider
    apiKey :=
      if provider == "openai" then s.openaiApiKey
      else if provider == "anthropic" then s.anthropicApiKey
      else none
    model := jsOr s.estimationModel "gpt-3.5-turbo"
    localLlmUrl := if provider == "local" then jsOr s.localLlmUrl "http://localhost:11434" else "http://localhost:11434"
    localLlmModel := if provider == "local" then jsOr s.localLlmModel "qwen2.5-coder:1.5b" else "qwen2.5-coder:1.5b" }

/-- The `useAI` eligibility test of `estimateSingle` (part_000 line 111):
provider `"local"`, or a hosted provider with a truthy (non-empty) key. -/
def useAI (ps : ProviderState) : Bool :=
  ps.aiProvider == "local"
    || (jsTruthy ps.apiKey && (ps.aiProvider == "openai" || ps.aiProvider == "anthropic"))

/-- `TimeEstimator.getAIEstimate` (part_000 lines 150–162): dispatch to the
provider's backend caller. -/
def getAIEstimate (ps : ProviderState) (out : FetchOutcome) : Except String JValue :=
  if ps.aiProvider == "openai" then callOpenAI out
  else if ps.aiProvider == "anthropic" then callAnthropic out
  else if ps.aiProvider == "local" then callOllama out
  else .error ("Unknown AI provider: " ++ ps.aiProvider)

/-- The body of the `try` block of `estimateSingle` (part_000 lines 122–127):
`getAIEstimate` followed by the `aiEstimate.minutes` property read (which
throws when the parsed value is `null`). -/
def aiMinutes (ps : ProviderState) (out : FetchOutcome) : Except String (Option JValue) :=
  match getAIEstimate ps out with
  | .error e => .error e
  | .ok .null => .error "TypeError: cannot read properties of null"
  | .ok v => .ok (v.getField "minutes")

/-- The record returned by `estimateSingle`: the input item spread together
with `estimatedMinutes`, `estimationMethod` and `estimatedAt` (part_000
lines 139–144). -/
structure EstimatedAssignment where
  item : AssignmentInput
  estimatedMinutes : Option JValue
  estimationMethod : String
  estimatedAt : Int

/-- The heuristic-path result of `estimateSingle`. -/
def heuristicResult (a : AssignmentInput) (now : Int) : EstimatedAssignment :=
  ⟨a, some (.num (getHeuristicEstimate a)), "heuristic", now⟩

/-- `TimeEstimator.estimateSingle` (part_000 lines 104–145) with the
environment explicit: the stored settings `s` (re-read by `configure`), the
outcome `out` of the AI fetch (if one is made) and the `Date.now()` value
`now`.  Any exception in the `try` block falls back to the heuristic; the
function itself is total — it never throws to its caller. -/
def estimateSingle (s : Settings) (out : FetchOutcome) (now : Int) (a : AssignmentInput) : EstimatedAssignment :=
  if useAI (configure s) then
    match aiMinutes (configure s) out with
    | .ok m => ⟨a, m, "ai", now⟩
    | .error _ => heuristicResult a now
  else heuristicResult a now

/-- The loop of `estimateAll` from position `k`: the `k`-th iteration uses
the `k`-th fetch outcome and the `k`-th clock reading. -/
def estimateAllFrom (s : Settings) (oracle : Nat → FetchOutcome) (clock : Nat → Int) :
    Nat → List AssignmentInput → List EstimatedAssignment
  | _, [] => []
  | k, a :: rest => estimateSingle s (oracle k) (clock k) a :: estimateAllFrom s oracle clock (k + 1) rest

/-- `TimeEstimator.estimateAll` (part_000 lines 88–99): sequential loop of
`estimateSingle` over the items in input order, pushing each result. -/
def estimateAll (s : Settings) (oracle : Nat → FetchOutcome) (clock : Nat → Int)
    (items : List AssignmentInput) : List EstimatedAssignment :=
  estimateAllFrom s oracle clock 0 items

/-! ## Prompt building -/

/-- The input after the first `>` (the end of a `/<[^>]*>/` match), if any. -/
def dropThroughGt : List Char → Option (List Char)
  | [] => none
  | c :: rest => if c == '>' then some rest else dropThroughGt rest

/-- `TimeEstimator.stripHtml` (part_000 lines 377–380), first stage: the
global replacement of `/<[^>]*>/` by a space (a `<` with no later `>`
stays). -/
def stripTags : List Char → List Char
  | [] => []
  | c :: rest =>
    if c == '<' then
      match h : dropThroughGt rest with
      | some tail => ' ' :: stripTags tail
      | none => c :: stripTags rest
    else c :: stripTags rest
termination_by l => l.length
decreasing_by
  · have key : ∀ (l t : List Char), dropThroughGt l = some t → t.length < l.length := by
      intro l
      induction l with
      | nil => intro t h2; simp [dropThroughGt] at h2
      | cons d ds ih =>
        intro t h2
        simp only [dropThroughGt] at h2
        split at h2
        · cases h2; simp
        · exact Nat.lt_trans (ih t h2) (by simp)
    exact Nat.lt_trans (key _ _ (by assumption)) (by simp)
  · simp
  · simp

/-- `TimeEstimator.stripHtml`, second stage: collapse `/\s+/` runs to one
space. -/
def collapseWs : List Char → List Char
  | [] => []
  | c :: rest =>
    if isJsSpace c then ' ' :: collapseWs (rest.dropWhile isJsSpace)
    else c :: collapseWs rest
termination_by l => l.length
decreasing_by
  · simp only [List.length_cons]
    exact Nat.lt_succ_of_le (List.Sublist.length_le (List.dropWhile_sublist _))
  · simp


/-- JS `String.prototype.trim`: drop leading and trailing whitespace. -/
def jsTrim (l : List Char) : List Char :=
  ((l.dropWhile isJsSpace).reverse.dropWhile isJsSpace).reverse

/-- `TimeEstimator.stripHtml` (part_000 lines 377–380): tag removal, then
whitespace collapsing, then trim. -/
def stripHtml (html : String) : String :=
  if html == "" then ""
  else String.mk (jsTrim (collapseWs (stripTags html.data)))

/-- `TimeEstimator.truncate` (part_000 lines 385–388): identity up to
`maxLength` characters, otherwise the first `maxLength` characters with an
ellipsis marker appended. -/
def truncate (text : String) (maxLength : Nat) : String :=
  if text == "" || text.length ≤ maxLength then text
  else String.mk (text.data.take maxLength) ++ "..."

/-- JS template interpolation of a possibly-undefined string
(`undefined` renders as the text `undefined`). -/
def jsInterp (x : Option String) : String := jsToString (x.map JValue.str)

/-- The Points line of the prompt details: present exactly when
`pointsPossible` is a number (`typeof === 'number'`, including `0`). -/
def pointsLines (pts : Option Rat) : List String :=
  match pts with
  | some p => ["Points: " ++ ratToString p]
  | none => []

/-- The submission-types line of the prompt details: present exactly when
the list is present and non-empty (`assignment.submissionTypes?.length`). -/
def submissionLines (subs : Option (List String)) : List String :=
  match subs with
  | some ts => if ts.isEmpty then [] else ["Submission types: " ++ String.intercalate ", " ts]
  | none => []

/-- The description-snippet line of the prompt details: present exactly when
the description is present and non-empty (JS truthiness), rendered as the
HTML-stripped, whitespace-collapsed text truncated at 500 characters. -/
def descriptionLines (desc : Option String) : List String :=
  match desc with
  | some d => if d == "" then [] else ["Description snippet: " ++ truncate (stripHtml d) 500]
  | none => []

/-- The `details` line list of `buildPrompt` (part_000 lines 168–175): the
three unconditional lines followed by the three conditional ones
(`filter(Boolean)` drops the `null` entries). -/
def promptDetails (a : AssignmentInput) : List String :=
  ["Title: " ++ jsInterp a.title,
   "Type: " ++ jsInterp a.itemType,
   "Course: " ++ jsInterp a.courseName]
  ++ pointsLines a.pointsPossible
  ++ submissionLines a.submissionTypes
  ++ descriptionLines a.description

/-- The fixed text before the details block in the prompt template. -/
def promptHeader : String :=
  "You are an academic workload estimator. Based on the following assignment details, estimate how many minutes it would take an average student to complete this assignment.\n\nAssignment Details:\n"

/-- The fixed text after the details block in the prompt template
(instruction list, strict JSON format request and plausibility anchor). -/
def promptFooter : String :=
  "\n\nConsider factors like:\n- Type of assignment (quiz, essay, project, discussion, etc.)\n- Complexity indicated by points\n- Submission type requirements\n- Subject matter complexity\n\nRespond with ONLY a JSON object in this exact format:\n\x7b\"minutes\": <number>, \"reasoning\": \"<brief explanation>\"\x7d\n\nBe realistic - most assignments take between 30 minutes and 4 hours. Only estimate longer for major projects or papers."

/-- `TimeEstimator.buildPrompt` (part_000 lines 167–192): the fixed template
around the newline-joined detail lines. -/
def buildPrompt (a : AssignmentInput) : String :=
  promptHeader ++ String.intercalate "\n" (promptDetails a) ++ promptFooter

/-- JS truthiness of a possibly-undefined number: `undefined` and `0` are
falsy (`NaN`, also falsy, has no counterpart in the `Rat` model and cannot
reach this test from the normalised items). -/
def jsNumTruthy : Option Rat → Bool
  | none => false
  | some p => !(p == 0)

/-- The Points line of the JS-variant prompt details (part_000 line 511):
`assignment.pointsPossible ? ... : null` — present exactly when
`pointsPossible` is truthy, so a numeric `0` produces no line. -/
def pointsLinesJs (pts : Option Rat) : List String :=
  match pts with
  | some p => if p == 0 then [] else ["Points: " ++ ratToString p]
  | none => []

/-- The `details` line list of the JS variant of `buildPrompt` (part_000
lines 507–514): identical to the TS variant except for the truthiness test
on `pointsPossible`. -/
def promptDetailsJs (a : AssignmentInput) : List String :=
  ["Title: " ++ jsInterp a.title,
   "Type: " ++ jsInterp a.itemType,
   "Course: " ++ jsInterp a.courseName]
  ++ pointsLinesJs a.pointsPossible
  ++ submissionLines a.submissionTypes
  ++ descriptionLines a.description

/-- The JS variant of `TimeEstimator.buildPrompt` (part_000 lines 506–531):
the same fixed template around its own detail lines. -/
def buildPromptJs (a : AssignmentInput) : String :=
  promptHeader ++ String.intercalate "\n" (promptDetailsJs a) ++ promptFooter

/-! ## Source client: `getUpcomingAssignments` -/

/-- A Canvas course as used by `getUpcomingAssignments` (`id` and `name`). -/
structure Course where
  id : Int
  name : String
deriving DecidableEq

/-- A raw assignment object from `GET /courses/{id}/assignments` as far as
the aggregation logic inspects it (`due_at` feeds the sort comparator). -/
structure RawAssignment where
  id : Int
  name : String
  due_at : Option String
deriving DecidableEq

/-- A raw assignment spread together with `courseName` and `courseId`
(canvas-api.ts lines 148–152). -/
structure CourseAssignment where
  base : RawAssignment
  courseName : String
  courseId : Int
deriving DecidableEq

/-- `CanvasAPI.getUpcomingAssignments` (canvas-api.ts lines 138–163) with
the environment explicit: the active course list, the per-course assignment
fetch outcome, and `parseDate` modelling `new Date(x).getTime()` for the
sort comparator.  A failed per-course fetch is logged and skipped; the
aggregate is sorted ascending by parsed due date (JS `Array.sort` is
stable, modelled by `mergeSort`). -/
def getUpcomingAssignments (courses : List Course)
    (fetchAssignments : Course → Except String (List RawAssignment))
    (parseDate : Option String → Int) : List CourseAssignment :=
  let assignments := courses.foldl (fun acc course =>
    match fetchAssignments course with
    | .ok as => acc ++ as.map (fun a => ⟨a, course.name, course.id⟩)
    | .error _ => acc) []
  assignments.mergeSort (fun a b => parseDate a.base.due_at ≤ parseDate b.base.due_at)

/-! ## Orchestrator: the background refresh pass -/

/-- The sync-settings keys read by the service worker
(`canvasUrl`, `apiToken`, `showNotifications`). -/
structure SyncSettings where
  canvasUrl : Option String
  apiToken : Option String
  showNotifications : Option Bool
deriving DecidableEq

/-- The persisted cache (`chrome.storage.local`):
`cachedAssignments` and `lastUpdated`. -/
structure CacheState where
  cachedAssignments : Option (List EstimatedAssignment)
  lastUpdated : Option Int

/-- `checkForUrgentAssignments` (service-worker.js lines 81–103): when
notifications are enabled and some assignment is due within 24 hours (and
not yet due), a single aggregate notification message is produced. -/
def checkForUrgentAssignments (sync : SyncSettings) (parseDate : Option String → Int)
    (now : Int) (assignments : List EstimatedAssignment) : Option String :=
  if !(sync.showNotifications.getD false) then none
  else
    let urgent := assignments.filter (fun a =>
      parseDate a.item.dueDate - now < 24 * 60 * 60 * 1000 && now < parseDate a.item.dueDate)
    if urgent.length > 0 then
      some ("You have " ++ toString urgent.length ++ " assignment(s) due within 24 hours!")
    else none

/-- `refreshAssignmentsInBackground` (service-worker.js lines 47–76) with
the environment explicit: missing Canvas credentials return early; a failed
`getTodoItems` is caught, aborting the pass silently; on success the cache
is overwritten wholesale with the estimated items and `Date.now()`, and the
urgency check may produce a notification.  The first component of the
result is the cache after the pass. -/
def refreshAssignmentsInBackground (sync : SyncSettings)
    (fetchResult : Except String (List AssignmentInput)) (estSettings : Settings)
    (oracle : Nat → FetchOutcome) (clock : Nat → Int) (parseDate : Option String → Int)
    (now : Int) (cache : CacheState) : CacheState × Option String :=
  if !(jsTruthy sync.canvasUrl && jsTruthy sync.apiToken) then (cache, none)
  else
    match fetchResult with
    | .error _ => (cache, none)
    | .ok raw =>
      let assignments := estimateAll estSettings oracle clock raw
      ({ cachedAssignments := some assignments, lastUpdated := some now },
       checkForUrgentAssignments sync parseDate now assignments)

/-! ## Fixtures and small decision helpers used by the theorems -/

/-- Does a detail line start with the given prefix? -/
def hasLinePrefix (pre : String) (lines : List String) : Bool :=
  lines.any (fun s => listPrefixOf pre.data s.data)

/-- Do two character lists start with distinct characters? -/
def headNe : List Char → List Char → Bool
  | a :: _, b :: _ => !(a == b)
  | _, _ => false

/-- The raw Ollama response text of the embedded-JSON test case. -/
def ollamaExample : String :=
  "Sure! \x7b\"minutes\": 45, \"reasoning\": \"ok\"\x7d thanks"

/-- An assignment with no populated field. -/
def emptyItem : AssignmentInput :=
  { title := none, itemType := none, courseName := none, pointsPossible := none,
    submissionTypes := none, description := none, dueDate := none }

/-- A fully-populated sample assignment. -/
def sampleDescribedItem : AssignmentInput :=
  { title := some "Essay 1", itemType := none, courseName := some "Writing",
    pointsPossible := some 20, submissionTypes := some ["online_upload"],
    description := some "<p>Write an essay</p>", dueDate := none }

/-- A description whose stripped text exceeds the 500-character snippet
limit. -/
def longDescription : String := String.mk (List.replicate 600 'a')

/-- Three active courses for the partial-failure aggregation example. -/
def exCourses : List Course := [⟨1, "Math"⟩, ⟨2, "Physics"⟩, ⟨3, "Chemistry"⟩]

/-- Course-1 assignment due last. -/
def exA1 : RawAssignment := ⟨11, "HW A", some "2026-01-05"⟩

/-- Course-1 assignment due first. -/
def exA2 : RawAssignment := ⟨12, "HW B", some "2026-01-01"⟩

/-- Course-3 assignment due in the middle. -/
def exA3 : RawAssignment := ⟨31, "Lab", some "2026-01-03"⟩

/-- Per-course fetch outcomes: course 2 fails, courses 1 and 3 succeed. -/
def exFetch : Course → Except String (List RawAssignment) := fun c =>
  if c.id == 1 then .ok [exA1, exA2]
  else if c.id == 2 then .error "Canvas API error (500): internal server error"
  else .ok [exA3]

/-- Parsed timestamps of the example due dates. -/
def exParseDate : Option String → Int := fun d =>
  match d with
  | some "2026-01-01" => 100
  | some "2026-01-03" => 300
  | some "2026-01-05" => 500
  | _ => 0

/-- The settings of a hosted provider with an empty credential. -/
def openaiNoKeySettings : Settings :=
  { aiProvider := some "openai", openaiApiKey := some "", anthropicApiKey := none,
    localLlmUrl := none, localLlmModel := none, estimationModel := none }

/-- The settings of the local provider. -/
def localSettings : Settings :=
  { aiProvider := some "local", openaiApiKey := none, anthropicApiKey := none,
    localLlmUrl := none, localLlmModel := none, estimationModel := none }

/-- Sync settings with no Canvas credentials. -/
def unconfiguredSync : SyncSettings :=
  { canvasUrl := none, apiToken := some "tok", showNotifications := none }

/-- Sync settings with Canvas credentials and notifications off. -/
def configuredSync : SyncSettings :=
  { canvasUrl := some "https://canvas.example.edu", apiToken := some "tok",
    showNotifications := some false }

/-- A non-empty prior cache used by the refresh-pass witness. -/
def priorCache : CacheState :=
  { cachedAssignments := some [heuristicResult emptyItem 5], lastUpdated := some 5 }

/-- An assignment worth 0 points: numeric, but falsy in JS. -/
def zeroPointsItem : AssignmentInput :=
  { title := some "Pop Quiz", itemType := some "quiz", courseName := some "Math",
    pointsPossible := some 0, submissionTypes := none, description := none,
    dueDate := none }

/-- C1: for every input assignment — any title, any type, any points value
(negative, fractional or absent), any submission-modality set —
`getHeuristicEstimate` is a total function (hence deterministic and
non-failing) whose value lies in the closed range [15, 480]. -/
theorem getHeuristicEstimate_range (a : AssignmentInput) :
    15 ≤ getHeuristicEstimate a ∧ getHeuristicEstimate a ≤ 480 := by
  have h : ∀ x : Rat, 15 ≤ min (max x 15) 480 ∧ min (max x 15) 480 ≤ 480 :=
    fun x => ⟨le_min (le_max_right _ _) (by norm_num), min_le_right _ _⟩
  exact h _

/-- C3: category resolution is exactly first-match-wins evaluation of the
priority-ordered rule list quiz → discussion → essay/paper →
project/presentation → exam/test/midterm/final → reading/read → default
`"assignment"`; in particular an item titled "Quiz Discussion" resolves to
`"quiz"`, never `"discussion"`. -/
theorem categorizeAssignment_priority :
    (∀ a : AssignmentInput, categorizeAssignment a = firstMatchCategory specCategoryRules a) ∧
    categorizeAssignment quizDiscussionItem = "quiz" := by
  constructor
  · intro a
    rfl
  · decide

/-- C10: `categorizeAssignment` always returns one of the seven category
strings, each of which is a key of the `defaultEstimates` table, so the
lookup in `getHeuristicEstimate` always succeeds and the
`|| defaultEstimates.default` fallback is unreachable. -/
theorem categorizeAssignment_total_lookup (a : AssignmentInput) :
    categorizeAssignment a ∈
      ["quiz", "discussion", "essay", "project", "exam", "reading", "assignment"] ∧
    (List.lookup (categorizeAssignment a) defaultEstimates).isSome = true := by
  have h : categorizeAssignment a ∈
      ["quiz", "discussion", "essay", "project", "exam", "reading", "assignment"] := by
    unfold categorizeAssignment
    repeat' split
    all_goals simp
  refine ⟨h, ?_⟩
  simp only [List.mem_cons, List.not_mem_nil, or_false] at h
  rcases h with h | h | h | h | h | h | h <;> rw [h] <;> decide

/-! ## C4: the local-backend parse cascade -/

/-- C4: on a successful HTTP response, the local-backend parser applies the
cascade — extract the first JSON-object-shaped substring containing a
`"minutes"` key and parse it (so the example text yields minutes = 45 even
though the whole text is not valid JSON); if that fails, fall back to the
`<number> minute(s)` regex; if that also fails, return the fixed
`{minutes: 60}` default.  `parseOllamaContent` is a total function of the
content text: the parse stage never throws. -/
theorem callOllama_parse_cascade :
    parseOllamaContent ollamaExample =
      JValue.obj [("minutes", JValue.num 45), ("reasoning", JValue.str "ok")] ∧
    (∀ s sub v, ollamaJsonMatch s = some sub → jsonParse sub = some v →
      parseOllamaContent s = v) ∧
    (∀ s sub n, ollamaJsonMatch s = some sub → jsonParse sub = none →
      extractMinutes s.data = some n →
      parseOllamaContent s =
        JValue.obj [("minutes", JValue.num (n : Int)), ("reasoning", JValue.str s)]) ∧
    (∀ s n, ollamaJsonMatch s = none → extractMinutes s.data = some n →
      parseOllamaContent s =
        JValue.obj [("minutes", JValue.num (n : Int)), ("reasoning", JValue.str s)]) ∧
    (∀ s sub, ollamaJsonMatch s = some sub → jsonParse sub = none →
      extractMinutes s.data = none →
      parseOllamaContent s =
        JValue.obj [("minutes", JValue.num 60), ("reasoning", JValue.str "Could not parse LLM response")]) ∧
    (∀ s, ollamaJsonMatch s = none → extractMinutes s.data = none →
      parseOllamaContent s =
        JValue.obj [("minutes", JValue.num 60), ("reasoning", JValue.str "Could not parse LLM response")]) := by
  refine ⟨rfl, ?_, ?_, ?_, ?_, ?_⟩
  · intro s sub v h1 h2
    simp [parseOllamaContent, h1, h2]
  · intro s sub n h1 h2 h3
    simp [parseOllamaContent, ollamaFallback, h1, h2, h3]
  · intro s n h1 h2
    simp [parseOllamaContent, ollamaFallback, h1, h2]
  · intro s sub h1 h2 h3
    simp [parseOllamaContent, ollamaFallback, h1, h2, h3]
  · intro s h1 h2
    simp [parseOllamaContent, ollamaFallback, h1, h2]

/-- Witness for C4: the regex stage on a bare-number text and the fixed
default on an unparseable text. -/
theorem callOllama_parse_cascade_witness :
    parseOllamaContent "it should take 45 minutes" =
      JValue.obj [("minutes", JValue.num ((45 : Nat) : Int)),
                  ("reasoning", JValue.str "it should take 45 minutes")] ∧
    parseOllamaContent "hello" =
      JValue.obj [("minutes", JValue.num 60),
                  ("reasoning", JValue.str "Could not parse LLM response")] :=
  ⟨callOllama_parse_cascade.2.2.2.1 "it should take 45 minutes" 45 (by decide) (by rfl),
   callOllama_parse_cascade.2.2.2.2.2 "hello" (by decide) (by rfl)⟩

/-! ## C9: the frame of `estimateSingle` -/

/-- C9: the record returned by `estimateSingle` carries the whole input item
unchanged and adds exactly `estimatedMinutes`, `estimationMethod` (one of
`"ai"`/`"heuristic"`) and `estimatedAt` (the capture timestamp).  In the
embedding the added fields are separate from `item`, which models the
precondition that the input does not itself carry those field names. -/
theorem estimateSingle_frame (s : Settings) (out : FetchOutcome) (now : Int)
    (a : AssignmentInput) :
    (estimateSingle s out now a).item = a ∧
    (estimateSingle s out now a).estimatedAt = now ∧
    ((estimateSingle s out now a).estimationMethod = "ai" ∨
      (estimateSingle s out now a).estimationMethod = "heuristic") := by
  unfold estimateSingle
  split
  · split
    · exact ⟨rfl, rfl, Or.inl rfl⟩
    · exact ⟨rfl, rfl, Or.inr rfl⟩
  · exact ⟨rfl, rfl, Or.inr rfl⟩

/-! ## C6: `estimateAll` -/

/-- The loop of `estimateAll` preserves length. -/
theorem estimateAllFrom_length (s : Settings) (oracle : Nat → FetchOutcome)
    (clock : Nat → Int) :
    ∀ (items : List AssignmentInput) (k : Nat),
      (estimateAllFrom s oracle clock k items).length = items.length := by
  intro items
  induction items with
  | nil => intro k; rfl
  | cons a rest ih => intro k; simp [estimateAllFrom, ih]

/-- The `i`-th element produced by the loop of `estimateAll` from position
`k` is the estimate of the `i`-th remaining item, with the `(k+i)`-th fetch
outcome and clock reading. -/
theorem estimateAllFrom_getElem (s : Settings) (oracle : Nat → FetchOutcome)
    (clock : Nat → Int) :
    ∀ (items : List AssignmentInput) (k i : Nat),
      (estimateAllFrom s oracle clock k items)[i]? =
        (items[i]?).map (fun a => estimateSingle s (oracle (k + i)) (clock (k + i)) a) := by
  intro items
  induction items with
  | nil => intro k i; simp [estimateAllFrom]
  | cons a rest ih =>
    intro k i
    cases i with
    | zero => simp [estimateAllFrom]
    | succ j =>
      have hkj : k + 1 + j = k + (j + 1) := by omega
      simp only [estimateAllFrom, List.getElem?_cons_succ]
      rw [ih (k + 1) j, hkj]

/-- C6: `estimateAll` applies `estimateSingle` to each item in input order,
sequentially — the output has the same length and its `i`-th element is the
estimate of the `i`-th input (consuming the `i`-th fetch outcome and clock
reading); `estimateAll` of `[]` is `[]`. -/
theorem estimateAll_spec (s : Settings) (oracle : Nat → FetchOutcome)
    (clock : Nat → Int) (items : List AssignmentInput) :
    estimateAll s oracle clock [] = [] ∧
    (estimateAll s oracle clock items).length = items.length ∧
    (∀ i : Nat, (estimateAll s oracle clock items)[i]? =
      (items[i]?).map (fun a => estimateSingle s (oracle i) (clock i) a)) := by
  refine ⟨rfl, estimateAllFrom_length s oracle clock items 0, fun i => ?_⟩
  simpa using estimateAllFrom_getElem s oracle clock items 0 i

/-! ## C2: AI failure never escapes `estimateSingle` -/

/-- Every backend caller turns a rejected fetch into a thrown error. -/
theorem getAIEstimate_fail (ps : ProviderState) (msg : String) :
    ∃ e, getAIEstimate ps (FetchOutcome.fail msg) = .error e := by
  unfold getAIEstimate
  split
  · exact ⟨msg, rfl⟩
  · split
    · exact ⟨msg, rfl⟩
    · split
      · exact ⟨msg, rfl⟩
      · exact ⟨_, rfl⟩

/-- Every backend caller throws on a non-success HTTP status. -/
theorem getAIEstimate_badStatus (ps : ProviderState) (st : Nat) (body : String)
    (h : respOk st = false) :
    ∃ e, getAIEstimate ps (FetchOutcome.resp st body) = .error e := by
  unfold getAIEstimate
  split
  · exact ⟨"OpenAI API error: " ++ toString st, by simp [callOpenAI, h]⟩
  · split
    · exact ⟨"Anthropic API error: " ++ toString st, by simp [callAnthropic, h]⟩
    · split
      · exact ⟨"Ollama API error: " ++ toString st ++ " - " ++ body, by simp [callOllama, h]⟩
      · exact ⟨_, rfl⟩

/-- Every backend caller throws when the response body is not valid JSON
(`response.json()` rejects). -/
theorem getAIEstimate_badBody (ps : ProviderState) (st : Nat) (body : String)
    (h : jsonParse body = none) :
    ∃ e, getAIEstimate ps (FetchOutcome.resp st body) = .error e := by
  unfold getAIEstimate
  split
  · cases hok : respOk st
    · exact ⟨"OpenAI API error: " ++ toString st, by simp [callOpenAI, hok]⟩
    · exact ⟨"SyntaxError: response body is not valid JSON", by simp [callOpenAI, hok, h]⟩
  · split
    · cases hok : respOk st
      · exact ⟨"Anthropic API error: " ++ toString st, by simp [callAnthropic, hok]⟩
      · exact ⟨"SyntaxError: response body is not valid JSON", by simp [callAnthropic, hok, h]⟩
    · split
      · cases hok : respOk st
        · exact ⟨"Ollama API error: " ++ toString st ++ " - " ++ body, by simp [callOllama, hok]⟩
        · exact ⟨"SyntaxError: response body is not valid JSON", by simp [callOllama, hok, h]⟩
      · exact ⟨_, rfl⟩

/-- A thrown `getAIEstimate` makes the whole `try` block throw. -/
theorem aiMinutes_error (ps : ProviderState) (out : FetchOutcome)
    (h : ∃ e, getAIEstimate ps out = .error e) :
    ∃ e, aiMinutes ps out = .error e := by
  obtain ⟨e, he⟩ := h
  exact ⟨e, by simp [aiMinutes, he]⟩

/-- C2: `estimateSingle` never raises to its caller when the AI path fails:
whenever the `try` block throws (in particular on a rejected fetch, a
non-success HTTP status, or an unparseable response body), and likewise when
AI is ineligible (provider `"none"`/absent, or a hosted provider without a
non-empty credential), the result is the heuristic record — whose method is
`"heuristic"` and whose minutes value is populated. -/
theorem estimateSingle_ai_fallback (s : Settings) (out : FetchOutcome) (now : Int)
    (a : AssignmentInput) :
    (heuristicResult a now).estimationMethod = "heuristic" ∧
    (heuristicResult a now).estimatedMinutes = some (JValue.num (getHeuristicEstimate a)) ∧
    (∀ e, aiMinutes (configure s) out = .error e →
      estimateSingle s out now a = heuristicResult a now) ∧
    (useAI (configure s) = false → estimateSingle s out now a = heuristicResult a now) ∧
    ((s.aiProvider = some "none" ∨ s.aiProvider = none) →
      estimateSingle s out now a = heuristicResult a now) ∧
    (s.aiProvider = some "openai" → jsTruthy s.openaiApiKey = false →
      estimateSingle s out now a = heuristicResult a now) ∧
    (s.aiProvider = some "anthropic" → jsTruthy s.anthropicApiKey = false →
      estimateSingle s out now a = heuristicResult a now) ∧
    (∀ msg, out = FetchOutcome.fail msg →
      estimateSingle s out now a = heuristicResult a now) ∧
    (∀ st body, out = FetchOutcome.resp st body → respOk st = false →
      estimateSingle s out now a = heuristicResult a now) ∧
    (∀ st body, out = FetchOutcome.resp st body → jsonParse body = none →
      estimateSingle s out now a = heuristicResult a now) := by
  have hUse : useAI (configure s) = false →
      estimateSingle s out now a = heuristicResult a now := by
    intro hu
    simp [estimateSingle, hu]
  have hErr : ∀ e, aiMinutes (configure s) out = .error e →
      estimateSingle s out now a = heuristicResult a now := by
    intro e he
    cases hu : useAI (configure s)
    · exact hUse hu
    · simp [estimateSingle, hu, he]
  have hAnyErr : (∃ e, getAIEstimate (configure s) out = .error e) →
      estimateSingle s out now a = heuristicResult a now := by
    intro h
    obtain ⟨e, he⟩ := aiMinutes_error (configure s) out h
    exact hErr e he
  refine ⟨rfl, rfl, hErr, hUse, ?_, ?_, ?_, ?_, ?_, ?_⟩
  · intro hp
    apply hUse
    have h1 : (configure s).aiProvider = "none" := by
      rcases hp with hp | hp <;> · show jsOr s.aiProvider "none" = "none"; rw [hp]; rfl
    have h2 : (configure s).apiKey = none := by
      rcases hp with hp | hp <;> · show ite _ _ _ = none; rw [hp]; rfl
    simp [useAI, h1, h2, jsTruthy]
  · intro hp hk
    apply hUse
    have h1 : (configure s).aiProvider = "openai" := by
      show jsOr s.aiProvider "none" = "openai"; rw [hp]; rfl
    have h2 : (configure s).apiKey = s.openaiApiKey := by
      show ite _ _ _ = s.openaiApiKey; rw [hp]; rfl
    simp [useAI, h1, h2, hk]
  · intro hp hk
    apply hUse
    have h1 : (configure s).aiProvider = "anthropic" := by
      show jsOr s.aiProvider "none" = "anthropic"; rw [hp]; rfl
    have h2 : (configure s).apiKey = s.anthropicApiKey := by
      show ite _ _ _ = s.anthropicApiKey; rw [hp]; rfl
    simp [useAI, h1, h2, hk]
  · intro msg hm
    subst hm
    exact hAnyErr (getAIEstimate_fail (configure s) msg)
  · intro st body hm hst
    subst hm
    exact hAnyErr (getAIEstimate_badStatus (configure s) st body hst)
  · intro st body hm hb
    subst hm
    exact hAnyErr (getAIEstimate_badBody (configure s) st body hb)

/-- Witness for C2: a hosted provider with an empty credential goes straight
to the heuristic; the local provider falls back to the heuristic on a
network error and on an HTTP 500. -/
theorem estimateSingle_ai_fallback_witness :
    estimateSingle openaiNoKeySettings (FetchOutcome.resp 200 "ignored") 3 emptyItem =
      heuristicResult emptyItem 3 ∧
    estimateSingle localSettings (FetchOutcome.fail "network down") 4 emptyItem =
      heuristicResult emptyItem 4 ∧
    estimateSingle localSettings (FetchOutcome.resp 500 "oops") 5 emptyItem =
      heuristicResult emptyItem 5 :=
  ⟨(estimateSingle_ai_fallback openaiNoKeySettings (FetchOutcome.resp 200 "ignored") 3
      emptyItem).2.2.2.2.2.1 rfl (by decide),
   (estimateSingle_ai_fallback localSettings (FetchOutcome.fail "network down") 4
      emptyItem).2.2.2.2.2.2.2.1 "network down" rfl,
   (estimateSingle_ai_fallback localSettings (FetchOutcome.resp 500 "oops") 5
      emptyItem).2.2.2.2.2.2.2.2.1 500 "oops" rfl (by decide)⟩

/-! ## C5: partial-failure aggregation in `getUpcomingAssignments` -/

/-- The per-course loop of `getUpcomingAssignments` collects exactly the
enriched assignments of the successfully-fetched courses, in order. -/
theorem getUpcoming_foldl (fetchAssignments : Course → Except String (List RawAssignment)) :
    ∀ (courses : List Course) (acc : List CourseAssignment),
      courses.foldl (fun acc course =>
        match fetchAssignments course with
        | .ok as => acc ++ as.map (fun a => CourseAssignment.mk a course.name course.id)
        | .error _ => acc) acc
      = acc ++ (courses.map (fun c =>
          match fetchAssignments c with
          | .ok as => as.map (fun a => CourseAssignment.mk a c.name c.id)
          | .error _ => [])).flatten := by
  intro courses
  induction courses with
  | nil => intro acc; simp
  | cons c rest ih =>
    intro acc
    cases hf : fetchAssignments c <;>
      simp [List.foldl_cons, hf, ih, List.append_assoc]

unseal List.merge List.mergeSort in
/-- C5: `getUpcomingAssignments` skips (rather than aborts on) individual
per-course fetch failures — its result is a permutation of the flattened
per-course results of exactly the successful courses — and is sorted
ascending by parsed due date; on the 3-course example where the second
course's fetch fails, the result is exactly the assignments of courses 1
and 3, sorted by due date. -/
theorem getUpcomingAssignments_spec (courses : List Course)
    (fetchAssignments : Course → Except String (List RawAssignment))
    (parseDate : Option String → Int) :
    (getUpcomingAssignments courses fetchAssignments parseDate).Pairwise
      (fun x y => parseDate x.base.due_at ≤ parseDate y.base.due_at) ∧
    (getUpcomingAssignments courses fetchAssignments parseDate).Perm
      ((courses.map (fun c =>
        match fetchAssignments c with
        | .ok as => as.map (fun a => CourseAssignment.mk a c.name c.id)
        | .error _ => [])).flatten) ∧
    getUpcomingAssignments exCourses exFetch exParseDate =
      [⟨exA2, "Math", 1⟩, ⟨exA3, "Chemistry", 3⟩, ⟨exA1, "Math", 1⟩] := by
  refine ⟨?_, ?_, ?_⟩
  · have h := @List.sorted_mergeSort CourseAssignment
      (fun x y : CourseAssignment =>
        decide (parseDate x.base.due_at ≤ parseDate y.base.due_at))
      (fun a b c h1 h2 => by
        simp only [decide_eq_true_eq] at h1 h2 ⊢
        exact le_trans h1 h2)
      (fun a b => by
        simp only [Bool.or_eq_true, decide_eq_true_eq]
        exact le_total _ _)
      (courses.foldl (fun acc course =>
        match fetchAssignments course with
        | .ok as => acc ++ as.map (fun a => CourseAssignment.mk a course.name course.id)
        | .error _ => acc) [])
    exact h.imp (fun hab => by simpa using hab)
  · exact (List.mergeSort_perm _ _).trans
      (by rw [getUpcoming_foldl fetchAssignments courses []]; simp)
  · rfl

/-! ## C7: the background refresh pass and the cache -/

/-- C7: when the scheduled refresh pass cannot run (missing credentials) or
the fetch fails entirely, the pass returns silently and the persisted cache
is left exactly as it was; the cache is written (wholesale, with the new
timestamp) only when fetch and estimation succeed. -/
theorem refreshAssignments_cache_spec (sync : SyncSettings)
    (fetchResult : Except String (List AssignmentInput)) (estSettings : Settings)
    (oracle : Nat → FetchOutcome) (clock : Nat → Int) (parseDate : Option String → Int)
    (now : Int) (cache : CacheState) :
    ((jsTruthy sync.canvasUrl = false ∨ jsTruthy sync.apiToken = false) →
      refreshAssignmentsInBackground sync fetchResult estSettings oracle clock parseDate now cache
        = (cache, none)) ∧
    (∀ e, fetchResult = .error e →
      refreshAssignmentsInBackground sync fetchResult estSettings oracle clock parseDate now cache
        = (cache, none)) ∧
    (∀ raw, fetchResult = .ok raw → jsTruthy sync.canvasUrl = true →
      jsTruthy sync.apiToken = true →
      (refreshAssignmentsInBackground sync fetchResult estSettings oracle clock parseDate now cache).1
        = { cachedAssignments := some (estimateAll estSettings oracle clock raw),
            lastUpdated := some now }) := by
  refine ⟨?_, ?_, ?_⟩
  · intro h
    rcases h with h | h <;> simp [refreshAssignmentsInBackground, h]
  · intro e he
    cases hc : jsTruthy sync.canvasUrl <;> cases ht : jsTruthy sync.apiToken <;>
      simp [refreshAssignmentsInBackground, hc, ht, he]
  · intro raw hr h1 h2
    simp [refreshAssignmentsInBackground, h1, h2, hr]

/-- Witness for C7: with no Canvas URL the prior cache survives the pass;
with credentials and a successful empty fetch the cache is overwritten. -/
theorem refreshAssignments_cache_spec_witness :
    refreshAssignmentsInBackground unconfiguredSync (.error "fetch failed")
      localSettings (fun _ => FetchOutcome.fail "x") (fun _ => 0) (fun _ => 0) 99 priorCache
      = (priorCache, none) ∧
    (refreshAssignmentsInBackground configuredSync (.ok [])
      localSettings (fun _ => FetchOutcome.fail "x") (fun _ => 0) (fun _ => 0) 99 priorCache).1
      = { cachedAssignments := some [], lastUpdated := some 99 } :=
  ⟨(refreshAssignments_cache_spec unconfiguredSync (.error "fetch failed") localSettings
      (fun _ => FetchOutcome.fail "x") (fun _ => 0) (fun _ => 0) 99 priorCache).1
      (Or.inl (by decide)),
   (refreshAssignments_cache_spec configuredSync (.ok []) localSettings
      (fun _ => FetchOutcome.fail "x") (fun _ => 0) (fun _ => 0) 99 priorCache).2.2
      [] rfl (by decide) (by decide)⟩

/-! ## C8: `buildPrompt` -/

/-- `String.append` acts as list append on the character data. -/
theorem strApp_data (s t : String) : (s ++ t).data = s.data ++ t.data := rfl

/-- A list is a prefix of itself followed by anything. -/
theorem listPrefixOf_refl_append (l r : List Char) : listPrefixOf l (l ++ r) = true := by
  induction l with
  | nil => rfl
  | cons a as ih => simp [listPrefixOf, ih]

/-- A string starts with itself. -/
theorem startsWith_self (p t : String) : listPrefixOf p.data ((p ++ t).data) = true := by
  rw [strApp_data]; exact listPrefixOf_refl_append _ _

/-- A list whose head differs is not a prefix. -/
theorem listPrefixOf_headNe (p q r : List Char) (h : headNe p q = true) :
    listPrefixOf p (q ++ r) = false := by
  cases p with
  | nil => simp [headNe] at h
  | cons a as =>
    cases q with
    | nil => simp [headNe] at h
    | cons b bs =>
      simp only [headNe, Bool.not_eq_true'] at h
      simp [List.cons_append, listPrefixOf, h]

/-- A string whose first character differs from the other string's first
character does not start with it. -/
theorem startsWith_ne (p q t : String) (h : headNe p.data q.data = true) :
    listPrefixOf p.data ((q ++ t).data) = false := by
  rw [strApp_data]; exact listPrefixOf_headNe _ _ _ h

/-- The Points segment has a `Points: `-prefixed line exactly when points
are numeric. -/
theorem any_pointsLines_self (pts : Option Rat) :
    (pointsLines pts).any (fun s => listPrefixOf "Points: ".data s.data) = pts.isSome := by
  cases pts with
  | none => rfl
  | some p =>
    rw [show pointsLines (some p) = ["Points: " ++ ratToString p] from rfl,
      List.any_cons, List.any_nil, Bool.or_false]
    show listPrefixOf "Points: ".data (("Points: " ++ ratToString p).data) = true
    exact startsWith_self _ _

/-- No line of the Points segment starts with a prefix whose head differs
from `P`. -/
theorem any_pointsLines_ne (pre : String) (pts : Option Rat)
    (h : headNe pre.data "Points: ".data = true) :
    (pointsLines pts).any (fun s => listPrefixOf pre.data s.data) = false := by
  cases pts with
  | none => rfl
  | some p =>
    rw [show pointsLines (some p) = ["Points: " ++ ratToString p] from rfl,
      List.any_cons, List.any_nil, Bool.or_false]
    show listPrefixOf pre.data (("Points: " ++ ratToString p).data) = false
    exact startsWith_ne _ _ _ h

/-- The submission segment has a `Submission types: `-prefixed line exactly
when the modality list is present and non-empty. -/
theorem any_submissionLines_self (subs : Option (List String)) :
    (submissionLines subs).any (fun s => listPrefixOf "Submission types: ".data s.data)
      = !(subs.getD []).isEmpty := by
  cases subs with
  | none => rfl
  | some ts =>
    cases hts : ts.isEmpty with
    | true => simp [submissionLines, hts]
    | false =>
      rw [show (some ts).getD [] = ts from rfl, hts,
        show submissionLines (some ts) = if ts.isEmpty then [] else
          ["Submission types: " ++ String.intercalate ", " ts] from rfl, hts]
      rw [if_neg (by simp), List.any_cons, List.any_nil, Bool.or_false]
      show listPrefixOf "Submission types: ".data
        (("Submission types: " ++ String.intercalate ", " ts).data) = true
      exact startsWith_self _ _

/-- No line of the submission segment starts with a prefix whose head
differs from `S`. -/
theorem any_submissionLines_ne (pre : String) (subs : Option (List String))
    (h : headNe pre.data "Submission types: ".data = true) :
    (submissionLines subs).any (fun s => listPrefixOf pre.data s.data) = false := by
  cases subs with
  | none => rfl
  | some ts =>
    cases hts : ts.isEmpty with
    | true => simp [submissionLines, hts]
    | false =>
      rw [show submissionLines (some ts) = if ts.isEmpty then [] else
          ["Submission types: " ++ String.intercalate ", " ts] from rfl, hts]
      rw [if_neg (by simp), List.any_cons, List.any_nil, Bool.or_false]
      show listPrefixOf pre.data
        (("Submission types: " ++ String.intercalate ", " ts).data) = false
      exact startsWith_ne _ _ _ h

/-- The description segment has a `Description snippet: `-prefixed line
exactly when the description is present and non-empty. -/
theorem any_descriptionLines_self (desc : Option String) :
    (descriptionLines desc).any (fun s => listPrefixOf "Description snippet: ".data s.data)
      = !((desc.getD "") == "") := by
  cases desc with
  | none => rfl
  | some d =>
    cases hd : d == "" with
    | true => simp [descriptionLines, hd]
    | false =>
      rw [show (some d).getD "" = d from rfl, hd,
        show descriptionLines (some d) = if d == "" then [] else
          ["Description snippet: " ++ truncate (stripHtml d) 500] from rfl, hd]
      rw [if_neg (by simp), List.any_cons, List.any_nil, Bool.or_false]
      show listPrefixOf "Description snippet: ".data
        (("Description snippet: " ++ truncate (stripHtml d) 500).data) = true
      exact startsWith_self _ _

/-- No line of the description segment starts with a prefix whose head
differs from `D`. -/
theorem any_descriptionLines_ne (pre : String) (desc : Option String)
    (h : headNe pre.data "Description snippet: ".data = true) :
    (descriptionLines desc).any (fun s => listPrefixOf pre.data s.data) = false := by
  cases desc with
  | none => rfl
  | some d =>
    cases hd : d == "" with
    | true => simp [descriptionLines, hd]
    | false =>
      rw [show descriptionLines (some d) = if d == "" then [] else
          ["Description snippet: " ++ truncate (stripHtml d) 500] from rfl, hd]
      rw [if_neg (by simp), List.any_cons, List.any_nil, Bool.or_false]
      show listPrefixOf pre.data
        (("Description snippet: " ++ truncate (stripHtml d) 500).data) = false
      exact startsWith_ne _ _ _ h

/-- The JS-variant Points segment has a `Points: `-prefixed line exactly
when the points value is truthy (numeric and non-zero). -/
theorem any_pointsLinesJs_self (pts : Option Rat) :
    (pointsLinesJs pts).any (fun s => listPrefixOf "Points: ".data s.data)
      = jsNumTruthy pts := by
  cases pts with
  | none => rfl
  | some p =>
    cases hp : p == 0 with
    | true => simp [pointsLinesJs, hp, jsNumTruthy]
    | false =>
      have hr : jsNumTruthy (some p) = true := by simp [jsNumTruthy, hp]
      rw [hr, show pointsLinesJs (some p) = if p == 0 then [] else
          ["Points: " ++ ratToString p] from rfl, hp]
      rw [if_neg (by simp), List.any_cons, List.any_nil, Bool.or_false]
      show listPrefixOf "Points: ".data (("Points: " ++ ratToString p).data) = true
      exact startsWith_self _ _

/-- No line of the JS-variant Points segment starts with a prefix whose
head differs from `P`. -/
theorem any_pointsLinesJs_ne (pre : String) (pts : Option Rat)
    (h : headNe pre.data "Points: ".data = true) :
    (pointsLinesJs pts).any (fun s => listPrefixOf pre.data s.data) = false := by
  cases pts with
  | none => rfl
  | some p =>
    cases hp : p == 0 with
    | true => simp [pointsLinesJs, hp]
    | false =>
      rw [show pointsLinesJs (some p) = if p == 0 then [] else
          ["Points: " ++ ratToString p] from rfl, hp]
      rw [if_neg (by simp), List.any_cons, List.any_nil, Bool.or_false]
      show listPrefixOf pre.data (("Points: " ++ ratToString p).data) = false
      exact startsWith_ne _ _ _ h

/-- C8 (amended): both variants of `buildPrompt` deterministically render
the fixed template around the newline-joined detail lines, which always
contain the title, type and course lines; the TS variant contains a Points
line exactly when `pointsPossible` is numeric (including 0), while the JS
variant (part_000 lines 506–531) contains it exactly when `pointsPossible`
is truthy — numeric and non-zero, so a 0-point assignment gets no Points
line there; both contain a submission-types line exactly when the modality
list is non-empty and a description-snippet line — the HTML-stripped,
whitespace-collapsed text truncated at 500 characters — exactly when a
(non-empty) description is present; `truncate` at 500 is the identity up to
500 characters and otherwise keeps 500 characters and appends the
3-character ellipsis marker. -/
theorem buildPrompt_spec (a : AssignmentInput) :
    buildPrompt a = promptHeader ++ String.intercalate "\n" (promptDetails a) ++ promptFooter ∧
    ("Title: " ++ jsInterp a.title) ∈ promptDetails a ∧
    ("Type: " ++ jsInterp a.itemType) ∈ promptDetails a ∧
    ("Course: " ++ jsInterp a.courseName) ∈ promptDetails a ∧
    hasLinePrefix "Points: " (promptDetails a) = a.pointsPossible.isSome ∧
    hasLinePrefix "Submission types: " (promptDetails a) = !(a.submissionTypes.getD []).isEmpty ∧
    hasLinePrefix "Description snippet: " (promptDetails a) = !((a.description.getD "") == "") ∧
    (∀ d, a.description = some d → (d == "") = false →
      ("Description snippet: " ++ truncate (stripHtml d) 500) ∈ promptDetails a) ∧
    (∀ x : String, x.length ≤ 500 → truncate x 500 = x) ∧
    (∀ x : String, 500 < x.length → (truncate x 500).length = 503) ∧
    buildPromptJs a = promptHeader ++ String.intercalate "\n" (promptDetailsJs a) ++ promptFooter ∧
    ("Title: " ++ jsInterp a.title) ∈ promptDetailsJs a ∧
    hasLinePrefix "Points: " (promptDetailsJs a) = jsNumTruthy a.pointsPossible ∧
    hasLinePrefix "Submission types: " (promptDetailsJs a) = !(a.submissionTypes.getD []).isEmpty ∧
    hasLinePrefix "Description snippet: " (promptDetailsJs a) = !((a.description.getD "") == "") ∧
    (∀ d, a.description = some d → (d == "") = false →
      ("Description snippet: " ++ truncate (stripHtml d) 500) ∈ promptDetailsJs a) := by
  have hbase : ∀ pre : String,
      headNe pre.data "Title: ".data = true →
      headNe pre.data "Type: ".data = true →
      headNe pre.data "Course: ".data = true →
      ([("Title: " ++ jsInterp a.title), ("Type: " ++ jsInterp a.itemType),
        ("Course: " ++ jsInterp a.courseName)].any
          (fun s => listPrefixOf pre.data s.data)) = false := by
    intro pre h1 h2 h3
    rw [List.any_cons, List.any_cons, List.any_cons, List.any_nil]
    show (listPrefixOf pre.data (("Title: " ++ jsInterp a.title).data) ||
      (listPrefixOf pre.data (("Type: " ++ jsInterp a.itemType).data) ||
      (listPrefixOf pre.data (("Course: " ++ jsInterp a.courseName).data) || false))) = false
    rw [startsWith_ne _ _ _ h1, startsWith_ne _ _ _ h2, startsWith_ne _ _ _ h3]
    rfl
  refine ⟨rfl, ?_, ?_, ?_, ?_, ?_, ?_, ?_, ?_, ?_, rfl, ?_, ?_, ?_, ?_, ?_⟩
  · simp [promptDetails]
  · simp [promptDetails]
  · simp [promptDetails]
  · show (promptDetails a).any (fun s => listPrefixOf "Points: ".data s.data) = _
    simp only [promptDetails, List.any_append]
    rw [hbase "Points: " (by decide) (by decide) (by decide),
      any_pointsLines_self, any_submissionLines_ne _ _ (by decide),
      any_descriptionLines_ne _ _ (by decide)]
    simp
  · show (promptDetails a).any (fun s => listPrefixOf "Submission types: ".data s.data) = _
    simp only [promptDetails, List.any_append]
    rw [hbase "Submission types: " (by decide) (by decide) (by decide),
      any_submissionLines_self, any_pointsLines_ne _ _ (by decide),
      any_descriptionLines_ne _ _ (by decide)]
    simp
  · show (promptDetails a).any (fun s => listPrefixOf "Description snippet: ".data s.data) = _
    simp only [promptDetails, List.any_append]
    rw [hbase "Description snippet: " (by decide) (by decide) (by decide),
      any_descriptionLines_self, any_pointsLines_ne _ _ (by decide),
      any_submissionLines_ne _ _ (by decide)]
    simp
  · intro d hd hne
    simp [promptDetails, descriptionLines, hd, hne]
  · intro x h
    simp [truncate, h]
  · intro x h
    have hne : (x == "") = false := by
      rw [beq_eq_false_iff_ne]
      intro hx
      subst hx
      simp at h
    have hle : ¬x.length ≤ 500 := by omega
    unfold truncate
    rw [hne, show (decide (x.length ≤ 500)) = false from by simp [hle]]
    rw [if_neg (by simp)]
    rw [String.length_append]
    have hdata : 500 ≤ x.data.length := le_of_lt h
    show (List.take 500 x.data).length + 3 = 503
    rw [List.length_take]
    rw [Nat.min_eq_left hdata]
  · simp [promptDetailsJs]
  · show (promptDetailsJs a).any (fun s => listPrefixOf "Points: ".data s.data) = _
    simp only [promptDetailsJs, List.any_append]
    rw [hbase "Points: " (by decide) (by decide) (by decide),
      any_pointsLinesJs_self, any_submissionLines_ne _ _ (by decide),
      any_descriptionLines_ne _ _ (by decide)]
    simp
  · show (promptDetailsJs a).any (fun s => listPrefixOf "Submission types: ".data s.data) = _
    simp only [promptDetailsJs, List.any_append]
    rw [hbase "Submission types: " (by decide) (by decide) (by decide),
      any_submissionLines_self, any_pointsLinesJs_ne _ _ (by decide),
      any_descriptionLines_ne _ _ (by decide)]
    simp
  · show (promptDetailsJs a).any (fun s => listPrefixOf "Description snippet: ".data s.data) = _
    simp only [promptDetailsJs, List.any_append]
    rw [hbase "Description snippet: " (by decide) (by decide) (by decide),
      any_descriptionLines_self, any_pointsLinesJs_ne _ _ (by decide),
      any_submissionLines_ne _ _ (by decide)]
    simp
  · intro d hd hne
    simp [promptDetailsJs, descriptionLines, hd, hne]

unseal stripTags collapseWs in
set_option maxRecDepth 4000 in
/-- Witness for C8: the description line of a populated sample item in both
variants, the identity behaviour of `truncate` on a short text and the
truncation behaviour on a 600-character text. -/
theorem buildPrompt_spec_witness :
    ("Description snippet: " ++ truncate (stripHtml "<p>Write an essay</p>") 500)
      ∈ promptDetails sampleDescribedItem ∧
    ("Description snippet: " ++ truncate (stripHtml "<p>Write an essay</p>") 500)
      ∈ promptDetailsJs sampleDescribedItem ∧
    truncate (stripHtml "<p>Write an essay</p>") 500 = stripHtml "<p>Write an essay</p>" ∧
    (truncate longDescription 500).length = 503 := by
  obtain ⟨-, -, -, -, -, -, -, h8, h9, h10, -, -, -, -, -, h16⟩ :=
    buildPrompt_spec sampleDescribedItem
  exact ⟨h8 "<p>Write an essay</p>" rfl (by decide),
    h16 "<p>Write an essay</p>" rfl (by decide),
    h9 (stripHtml "<p>Write an essay</p>") (by decide),
    h10 longDescription (by decide)⟩

/-- Counterexample to C8 as stated: the claim requires a Points line for
every numeric `pointsPossible` including 0, and its sources cite both
implementations; in the JS variant of `buildPrompt` (part_000 line 511,
`assignment.pointsPossible ? ... : null`) an assignment worth the number 0
produces no Points line, while the TS variant does produce one. -/
theorem buildPrompt_points_counterexample :
    zeroPointsItem.pointsPossible.isSome = true ∧
    hasLinePrefix "Points: " (promptDetailsJs zeroPointsItem) = false ∧
    hasLinePrefix "Points: " (promptDetails zeroPointsItem) = true := by
  refine ⟨rfl, ?_, ?_⟩ <;> decide
